import Mathlib

/-
Shallow embedding of src/chartmogul_to_slack.py.

The script is a three-stage pipeline: fetch a paying-customer count from
ChartMogul, render it into a 900x420 PNG card, and upload the card to Slack
via the three-step external-upload handshake.  Network effects, the font
cache and the Pillow import are modelled by explicit environment records;
Python exceptions are modelled by the Except monad over PyErr; the set of
outbound network calls issued by a run is returned as an explicit trace.
-/

namespace CM2Slack

/-- Python exceptions that the script can raise, by class and message. -/
inductive PyErr where
  | runtimeError (msg : String)
  | valueError (msg : String)
  | urlError (msg : String)
  | keyError (key : String)
deriving DecidableEq, Repr

/-- Outcome of one urlopen round trip: a decoded response value, or a raised
transport or HTTP-status error with its message. -/
inductive NetResult (α : Type) where
  | success (val : α)
  | failure (msg : String)
deriving DecidableEq, Repr

/-- Rendering of a Python value inside an f-string: None prints as the four
characters None, a string prints as itself. -/
def pyStrOfOpt : Option String → String
  | none => "None"
  | some s => s

/-- The outbound network calls the script can issue, in source order. -/
inductive NetCall where
  | chartmogul
  | poppinsFetch
  | slackStep1
  | slackStep2
  | slackStep3
deriving DecidableEq, Repr

-- ── Config constants (lines 30..35) ──────────────────────────────────────────

def IMAGE_WIDTH : Nat := 900

def IMAGE_HEIGHT : Nat := 420

def ACCENT_COLOR : String := "#751165"

def NUMBER_COLOR : String := "#3C247F"

def BG_COLOR : String := "#FEF9F2"

def GRID_COLOR : String := "#F5EEE3"

-- ── ChartMogul (get_paying_customers, lines 40..64) ──────────────────────────

/-- One element of the entries array of the customer-count response; the
customers field is a JSON integer, which may be any integer. -/
structure CMEntry where
  customers : Int
deriving DecidableEq, Repr

/-- The decoded JSON body of a successful customer-count response.  The Python
code reads data.get with default empty list, so an absent entries key is the
same as an empty list here. -/
structure CMData where
  entries : List CMEntry
deriving DecidableEq, Repr

/-- Result of the urlopen call against the ChartMogul endpoint: an HTTP error
status (caught by the except branch) with its code and body, or a decoded
response. -/
inductive CMNet where
  | httpError (code : Nat) (body : String)
  | success (data : CMData)
deriving DecidableEq, Repr

/-- Embeds get_paying_customers.  The today argument stands for the value of
date.today().isoformat() during the run.  An HTTP error is re-raised as
RuntimeError; an empty entries list raises ValueError; otherwise the
customers field of the last entry is returned, unvalidated. -/
def get_paying_customers (today : String) (net : CMNet) : Except PyErr Int :=
  match net with
  | .httpError code body =>
      .error (.runtimeError ("ChartMogul API error " ++ toString code ++ ": " ++ body))
  | .success data =>
      match data.entries.getLast? with
      | none => .error (.valueError ("No ChartMogul data returned for " ++ today ++ "."))
      | some e => .ok e.customers

-- ── Image generation (lines 69..159) ─────────────────────────────────────────

/-- A font value as produced by PIL: a truetype face loaded from a path at a
size, or the built-in default glyph set from ImageFont.load_default. -/
inductive Font where
  | truetype (path : String) (size : Nat)
  | builtinDefault
deriving DecidableEq, Repr

def song_myung_path : String := "SongMyung-Regular.ttf"

def poppins_cache_path : String := "Poppins-Regular.ttf"

def system_fallbacks : List String :=
  ["/usr/share/fonts/truetype/dejavu/DejaVuSans.ttf",
   "/usr/share/fonts/truetype/liberation/LiberationSans-Regular.ttf"]

/-- Environment of one generate_image call: whether Pillow imports, whether
the Poppins cache file already exists, the result of the font download when
attempted, and which font paths ImageFont.truetype can load. -/
structure RenderEnv where
  pillowInstalled : Bool
  poppinsCached : Bool
  poppinsFetch : NetResult Unit
  ttLoadOk : String → Bool

/-- Embeds download_poppins (lines 73..87): on a cache hit the cached path is
returned with no network call; on a cache miss the fetch is attempted and a
transport failure propagates as a raised error, there is no fallback here. -/
def download_poppins (env : RenderEnv) : Except PyErr String :=
  if env.poppinsCached then .ok poppins_cache_path
  else
    match env.poppinsFetch with
    | .success _ => .ok poppins_cache_path
    | .failure msg => .error (.urlError msg)

/-- Embeds the inner load_font helper (lines 121..130): try the primary path,
then each fallback path in order, and finally the built-in default glyph set.
The function is total: it never raises. -/
def load_font (ok : String → Bool) (path : String) (size : Nat)
    (fallback_paths : List String) : Font :=
  if ok path then .truetype path size
  else
    match fallback_paths.find? ok with
    | some fp => .truetype fp size
    | none => .builtinDefault

/-- Groups a least-significant-digit-first digit list in threes with comma
separators, as the comma format specifier of Python does. -/
def commaGroupRev : List Char → List Char
  | a :: b :: c :: d :: rest => a :: b :: c :: ',' :: commaGroupRev (d :: rest)
  | ds => ds

/-- Thousands grouping of a natural number, digits taken from its decimal
string. -/
def commaFormatNat (n : Nat) : String :=
  ⟨(commaGroupRev (toString n).data.reverse).reverse⟩

/-- Embeds the Python expression formatting customer_count with the comma
specifier in an f-string (line 147), including the sign for negatives. -/
def commaFormat (n : Int) : String :=
  if n < 0 then "-" ++ commaFormatNat n.natAbs else commaFormatNat n.natAbs

/-- One draw.text call: the string drawn, the font used, the fill color. -/
structure TextDraw where
  text : String
  font : Font
  fill : String
deriving DecidableEq, Repr

/-- The decoded form of the PNG byte buffer that generate_image returns:
canvas width and height, serialization format, and the text draws composed
onto the canvas, in draw order.  The grid lines and the accent rectangle are
decorative and carry no text, so they are not recorded. -/
structure RenderedPng where
  width : Nat
  height : Nat
  format : String
  texts : List TextDraw
deriving DecidableEq, Repr

/-- Embeds generate_image (lines 90..159).  The today_str argument stands for
date.today().strftime with the long month format.  Returns the rendered image
or the raised error, together with the network calls issued (the Poppins
fetch happens on a cache miss, after the Pillow import check). -/
def generate_image (env : RenderEnv) (today_str : String) (customer_count : Int) :
    Except PyErr RenderedPng × List NetCall :=
  if env.pillowInstalled = false then
    (.error (.runtimeError "Pillow is not installed. Run: pip install Pillow"), [])
  else
    let calls := if env.poppinsCached then [] else [NetCall.poppinsFetch]
    match download_poppins env with
    | .error e => (.error e, calls)
    | .ok poppins_path =>
      let font_big := load_font env.ttLoadOk song_myung_path 180 system_fallbacks
      let font_label := load_font env.ttLoadOk poppins_path 32 system_fallbacks
      let font_date := load_font env.ttLoadOk poppins_path 22 system_fallbacks
      let num_str := commaFormat customer_count
      (.ok { width := IMAGE_WIDTH, height := IMAGE_HEIGHT, format := "PNG",
             texts := [⟨"PAYING CUSTOMERS", font_label, ACCENT_COLOR⟩,
                       ⟨num_str, font_big, NUMBER_COLOR⟩,
                       ⟨today_str, font_date, ACCENT_COLOR⟩] }, calls)

-- ── Slack (upload_image_to_slack, lines 164..227) ────────────────────────────

/-- Decoded JSON body of the files.getUploadURLExternal response.  The ok
field is read with .get, the url and id fields by direct indexing, so absent
url or id keys raise KeyError in the model as in Python. -/
structure Step1Resp where
  ok : Bool
  upload_url : Option String
  file_id : Option String
  error : Option String
deriving DecidableEq, Repr

/-- Decoded JSON body of the files.completeUploadExternal response. -/
structure Step3Resp where
  ok : Bool
  error : Option String
deriving DecidableEq, Repr

/-- Environment of one upload_image_to_slack call: the outcome of each of the
three outbound requests, should it be issued. -/
structure SlackEnv where
  step1 : NetResult Step1Resp
  step2 : NetResult Unit
  step3 : NetResult Step3Resp
deriving DecidableEq, Repr

/-- Embeds upload_image_to_slack: the three-step handshake in source order.
Each urlopen failure raises and stops the sequence; an ok false body in step
one or step three raises RuntimeError carrying the remote error string.  The
second component lists the requests actually issued. -/
def upload_image_to_slack (env : SlackEnv) : Except PyErr Unit × List NetCall :=
  match env.step1 with
  | .failure msg => (.error (.urlError msg), [.slackStep1])
  | .success resp1 =>
    if resp1.ok = false then
      (.error (.runtimeError ("Slack getUploadURLExternal failed: " ++ pyStrOfOpt resp1.error)),
       [.slackStep1])
    else
      match resp1.upload_url with
      | none => (.error (.keyError "upload_url"), [.slackStep1])
      | some _upload_url =>
        match resp1.file_id with
        | none => (.error (.keyError "file_id"), [.slackStep1])
        | some _file_id =>
          match env.step2 with
          | .failure msg => (.error (.urlError msg), [.slackStep1, .slackStep2])
          | .success _ =>
            match env.step3 with
            | .failure msg =>
                (.error (.urlError msg), [.slackStep1, .slackStep2, .slackStep3])
            | .success resp3 =>
              if resp3.ok = false then
                (.error (.runtimeError
                    ("Slack completeUploadExternal failed: " ++ pyStrOfOpt resp3.error)),
                 [.slackStep1, .slackStep2, .slackStep3])
              else (.ok (), [.slackStep1, .slackStep2, .slackStep3])

-- ── Main (lines 232..251) ────────────────────────────────────────────────────

/-- The raw process environment: os.environ.get result for each of the three
required variables, none meaning the variable is absent. -/
structure RawEnv where
  CHARTMOGUL_API_KEY : Option String
  SLACK_BOT_TOKEN : Option String
  SLACK_CHANNEL_ID : Option String
deriving DecidableEq, Repr

/-- The module-level configuration values (lines 26..28). -/
structure Config where
  CHARTMOGUL_API_KEY : String
  SLACK_BOT_TOKEN : String
  SLACK_CHANNEL_ID : String
deriving DecidableEq, Repr

/-- os.environ.get with a default. -/
def os_environ_get (v : Option String) (dflt : String) : String := v.getD dflt

/-- Embeds lines 26..28: each setting is read with default empty string. -/
def loadConfig (e : RawEnv) : Config :=
  { CHARTMOGUL_API_KEY := os_environ_get e.CHARTMOGUL_API_KEY ""
    SLACK_BOT_TOKEN := os_environ_get e.SLACK_BOT_TOKEN ""
    SLACK_CHANNEL_ID := os_environ_get e.SLACK_CHANNEL_ID "" }

/-- Embeds the errors list built in main (lines 233..236): a setting is
missing when its value is falsy, that is, the empty string. -/
def missing_names (c : Config) : List String :=
  (if c.CHARTMOGUL_API_KEY = "" then ["CHARTMOGUL_API_KEY"] else []) ++
  (if c.SLACK_BOT_TOKEN = "" then ["SLACK_BOT_TOKEN"] else []) ++
  (if c.SLACK_CHANNEL_ID = "" then ["SLACK_CHANNEL_ID"] else [])

/-- How one run of the process ends: normal return, sys.exit with a status
code and the stderr line printed just before, or an uncaught exception. -/
inductive Outcome where
  | success
  | exited (code : Nat) (stderrMsg : String)
  | raised (e : PyErr)
deriving DecidableEq, Repr

/-- Observable trace of one run: the network calls issued, in order, and
whether generate_image was invoked. -/
structure RunTrace where
  netCalls : List NetCall
  renderCalled : Bool
deriving DecidableEq, Repr

/-- Environment of one whole run of the script. -/
structure Env where
  raw : RawEnv
  today : String
  todayLong : String
  chartmogul : CMNet
  render : RenderEnv
  slack : SlackEnv

/-- Embeds main (lines 232..251): the eager configuration check, then fetch,
render, upload in strict sequence, each uncaught exception aborting the
run. -/
def main (env : Env) : Outcome × RunTrace :=
  let config := loadConfig env.raw
  let errors := missing_names config
  if errors.isEmpty then
    match get_paying_customers env.today env.chartmogul with
    | .error e => (.raised e, ⟨[.chartmogul], false⟩)
    | .ok count =>
      match generate_image env.render env.todayLong count with
      | (.error e, rc) => (.raised e, ⟨.chartmogul :: rc, true⟩)
      | (.ok _img, rc) =>
        match upload_image_to_slack env.slack with
        | (.error e, sc) => (.raised e, ⟨.chartmogul :: rc ++ sc, true⟩)
        | (.ok _, sc) => (.success, ⟨.chartmogul :: rc ++ sc, true⟩)
  else
    (.exited 1 ("ERROR: Missing environment variables: " ++ String.intercalate ", " errors),
     ⟨[], false⟩)

/-- The three required environment variables, for statements quantified over
which variable is affected. -/
inductive EnvVar where
  | apiKey
  | botToken
  | channelId
deriving DecidableEq, Repr

def EnvVar.varName : EnvVar → String
  | .apiKey => "CHARTMOGUL_API_KEY"
  | .botToken => "SLACK_BOT_TOKEN"
  | .channelId => "SLACK_CHANNEL_ID"

def RawEnv.getVar (e : RawEnv) : EnvVar → Option String
  | .apiKey => e.CHARTMOGUL_API_KEY
  | .botToken => e.SLACK_BOT_TOKEN
  | .channelId => e.SLACK_CHANNEL_ID

def RawEnv.setVar (e : RawEnv) : EnvVar → Option String → RawEnv
  | .apiKey, v => { e with CHARTMOGUL_API_KEY := v }
  | .botToken, v => { e with SLACK_BOT_TOKEN := v }
  | .channelId, v => { e with SLACK_CHANNEL_ID := v }

/-- Substring containment on strings, via the underlying character lists. -/
def strContains (hay needle : String) : Prop :=
  ∃ a b : List Char, hay.data = a ++ needle.data ++ b
-- ── Concrete environments used by witnesses ──────────────────────────────────

/-- A render environment where Pillow imports, the Poppins file is cached and
every truetype load succeeds. -/
def okRenderEnv : RenderEnv := ⟨true, true, .success (), fun _ => true⟩

/-- A Slack environment where all three handshake steps succeed. -/
def okSlackEnv : SlackEnv :=
  ⟨.success ⟨true, some "https://up.example", some "F123", none⟩,
   .success (), .success ⟨true, none⟩⟩

/-- A process environment with all three required settings present and
non-empty. -/
def fullRaw : RawEnv := ⟨some "cm-key", some "xoxb-token", some "C012AB3CD"⟩

/-- A render environment where Pillow is installed, the Poppins typeface is
not cached, and the network fetch of the typeface fails. -/
def offlineRenderEnv : RenderEnv :=
  ⟨true, false, NetResult.failure "Network is unreachable", fun _ => true⟩

/-- The card rendered for count 1234567 in an environment where every font
loads. -/
def c7_png : RenderedPng :=
  { width := 900, height := 420, format := "PNG",
    texts := [⟨"PAYING CUSTOMERS", Font.truetype poppins_cache_path 32, ACCENT_COLOR⟩,
              ⟨"1,234,567", Font.truetype song_myung_path 180, NUMBER_COLOR⟩,
              ⟨"June 01, 2024", Font.truetype poppins_cache_path 22, ACCENT_COLOR⟩] }

-- ── Claim C1 ─────────────────────────────────────────────────────────────────

/-- Claim C1, counterexample.  The claim says generate_image never fails for a
non-negative count and that a failed network fetch of the remote typeface
must not abort rendering.  In the source, generate_image calls
download_poppins with no surrounding try, so with Pillow installed, no cached
typeface and a failing fetch, rendering count 0 raises the transport error
instead of returning PNG bytes. -/
theorem c1_counterexample :
    (generate_image offlineRenderEnv "June 01, 2024" 0).1
      = Except.error (PyErr.urlError "Network is unreachable") := rfl

/-- Claim C1, amended.  Whenever Pillow imports and the Poppins typeface is
available (already cached, or its fetch succeeds), generate_image returns an
image for every count and never raises; and truetype load failures degrade
silently: when the primary font path and every fallback path fail to load,
load_font returns the built-in default glyph set rather than raising.  What
does not hold from the original claim: a cache miss combined with a failed
network fetch of the typeface aborts rendering. -/
theorem c1_amended_render_robust (env : RenderEnv) (ts : String) (v : Int)
    (hp : env.pillowInstalled = true)
    (hfont : env.poppinsCached = true ∨ env.poppinsFetch = NetResult.success ()) :
    (∃ png : RenderedPng, (generate_image env ts v).1 = Except.ok png) ∧
    (∀ (path : String) (size : Nat) (fbs : List String),
      env.ttLoadOk path = false → (∀ fp ∈ fbs, env.ttLoadOk fp = false) →
      load_font env.ttLoadOk path size fbs = Font.builtinDefault) := by
  constructor
  · have hdl : download_poppins env = Except.ok poppins_cache_path := by
      rcases hfont with hc | hs
      · simp [download_poppins, hc]
      · by_cases hc : env.poppinsCached <;> simp [download_poppins, hc, hs]
    refine ⟨{ width := IMAGE_WIDTH, height := IMAGE_HEIGHT, format := "PNG",
              texts := [⟨"PAYING CUSTOMERS",
                          load_font env.ttLoadOk poppins_cache_path 32 system_fallbacks,
                          ACCENT_COLOR⟩,
                        ⟨commaFormat v,
                          load_font env.ttLoadOk song_myung_path 180 system_fallbacks,
                          NUMBER_COLOR⟩,
                        ⟨ts,
                          load_font env.ttLoadOk poppins_cache_path 22 system_fallbacks,
                          ACCENT_COLOR⟩] }, ?_⟩
    simp [generate_image, hp, hdl]
  · intro path size fbs hpath hfbs
    have hfind : fbs.find? env.ttLoadOk = none :=
      List.find?_eq_none.mpr (by intro x hx; simp [hfbs x hx])
    simp [load_font, hpath, hfind]

/-- Claim C1, witness: a concrete cache-miss environment whose fetch succeeds
and where no truetype font loads at all still renders count 842. -/
theorem c1_witness :
    (∃ png : RenderedPng,
      (generate_image ⟨true, false, NetResult.success (), fun _ => false⟩ "June 01, 2024" 842).1
        = Except.ok png) ∧
    (∀ (path : String) (size : Nat) (fbs : List String),
      (⟨true, false, NetResult.success (), fun _ => false⟩ : RenderEnv).ttLoadOk path = false →
      (∀ fp ∈ fbs,
        (⟨true, false, NetResult.success (), fun _ => false⟩ : RenderEnv).ttLoadOk fp = false) →
      load_font (⟨true, false, NetResult.success (), fun _ => false⟩ : RenderEnv).ttLoadOk
          path size fbs = Font.builtinDefault) :=
  c1_amended_render_robust _ "June 01, 2024" 842 rfl (Or.inr rfl)

-- ── Claim C2 ─────────────────────────────────────────────────────────────────

/-- Claim C2: when the step-2 byte transfer fails at the transport level,
upload_image_to_slack raises that transport error and the step-3 finalize
call (completeUploadExternal) is never issued in that run. -/
theorem c2_step2_failure_aborts (env : SlackEnv) (msg : String)
    (h2 : env.step2 = NetResult.failure msg) :
    NetCall.slackStep3 ∉ (upload_image_to_slack env).2 ∧
    (NetCall.slackStep2 ∈ (upload_image_to_slack env).2 →
      (upload_image_to_slack env).1 = Except.error (PyErr.urlError msg)) := by
  cases hs1 : env.step1 with
  | failure m => simp [upload_image_to_slack, hs1]
  | success r1 =>
    by_cases hok : r1.ok = false
    · simp [upload_image_to_slack, hs1, hok]
    · have hok' : r1.ok = true := by revert hok; cases r1.ok <;> simp
      rcases hu : r1.upload_url with _ | u
      · simp [upload_image_to_slack, hs1, hok', hu]
      · rcases hf : r1.file_id with _ | f
        · simp [upload_image_to_slack, hs1, hok', hu, hf]
        · simp [upload_image_to_slack, hs1, hok', hu, hf, h2]

/-- Claim C2, witness: step 1 succeeds, the byte transfer fails with a reset
connection, and finalize is never called. -/
theorem c2_witness :
    NetCall.slackStep3 ∉ (upload_image_to_slack
        ⟨NetResult.success ⟨true, some "https://up.example", some "F123", none⟩,
         NetResult.failure "connection reset", NetResult.success ⟨true, none⟩⟩).2 ∧
    (NetCall.slackStep2 ∈ (upload_image_to_slack
        ⟨NetResult.success ⟨true, some "https://up.example", some "F123", none⟩,
         NetResult.failure "connection reset", NetResult.success ⟨true, none⟩⟩).2 →
      (upload_image_to_slack
        ⟨NetResult.success ⟨true, some "https://up.example", some "F123", none⟩,
         NetResult.failure "connection reset", NetResult.success ⟨true, none⟩⟩).1
        = Except.error (PyErr.urlError "connection reset")) :=
  c2_step2_failure_aborts _ "connection reset" rfl

-- ── Claim C3 ─────────────────────────────────────────────────────────────────

/-- Claim C3: for every step-1 response whose ok field is false,
upload_image_to_slack raises RuntimeError whose message contains the
remote-reported reason string, and neither the step-2 byte transfer nor the
step-3 finalize is attempted. -/
theorem c3_step1_not_ok (env : SlackEnv) (r1 : Step1Resp)
    (h1 : env.step1 = NetResult.success r1) (hok : r1.ok = false) :
    ∃ msg : String, (upload_image_to_slack env).1 = Except.error (PyErr.runtimeError msg) ∧
      strContains msg (pyStrOfOpt r1.error) ∧
      NetCall.slackStep2 ∉ (upload_image_to_slack env).2 ∧
      NetCall.slackStep3 ∉ (upload_image_to_slack env).2 := by
  refine ⟨"Slack getUploadURLExternal failed: " ++ pyStrOfOpt r1.error, ?_, ?_, ?_, ?_⟩
  · simp [upload_image_to_slack, h1, hok]
  · exact ⟨"Slack getUploadURLExternal failed: ".data, [],
      by simp [String.data_append]⟩
  · simp [upload_image_to_slack, h1, hok]
  · simp [upload_image_to_slack, h1, hok]

/-- Claim C3, witness: the invalid_auth response from the spec scenario. -/
theorem c3_witness :
    ∃ msg : String,
      (upload_image_to_slack ⟨NetResult.success ⟨false, none, none, some "invalid_auth"⟩,
          NetResult.success (), NetResult.success ⟨true, none⟩⟩).1
        = Except.error (PyErr.runtimeError msg) ∧
      strContains msg (pyStrOfOpt (some "invalid_auth")) ∧
      NetCall.slackStep2 ∉ (upload_image_to_slack
          ⟨NetResult.success ⟨false, none, none, some "invalid_auth"⟩,
          NetResult.success (), NetResult.success ⟨true, none⟩⟩).2 ∧
      NetCall.slackStep3 ∉ (upload_image_to_slack
          ⟨NetResult.success ⟨false, none, none, some "invalid_auth"⟩,
          NetResult.success (), NetResult.success ⟨true, none⟩⟩).2 :=
  c3_step1_not_ok _ ⟨false, none, none, some "invalid_auth"⟩ rfl rfl

-- ── Claim C4 ─────────────────────────────────────────────────────────────────

/-- Claim C4: when the configuration check passes and the provider response
has an empty entries array, the run raises the ValueError that plays the role
of NoDataError, and generate_image is never invoked in that run. -/
theorem c4_empty_entries_no_render (env : Env) (data : CMData)
    (hcfg : missing_names (loadConfig env.raw) = [])
    (hnet : env.chartmogul = CMNet.success data)
    (hempty : data.entries = []) :
    (main env).1 = Outcome.raised (PyErr.valueError
        ("No ChartMogul data returned for " ++ env.today ++ ".")) ∧
    (main env).2.renderCalled = false := by
  simp [main, hcfg, get_paying_customers, hnet, hempty]

/-- Claim C4, witness: a fully configured run whose provider returns an empty
entries array. -/
theorem c4_witness :
    (main ⟨fullRaw, "2024-06-01", "June 01, 2024",
        CMNet.success ⟨[]⟩, okRenderEnv, okSlackEnv⟩).1
      = Outcome.raised (PyErr.valueError
          ("No ChartMogul data returned for " ++ "2024-06-01" ++ ".")) ∧
    (main ⟨fullRaw, "2024-06-01", "June 01, 2024",
        CMNet.success ⟨[]⟩, okRenderEnv, okSlackEnv⟩).2.renderCalled = false :=
  c4_empty_entries_no_render _ ⟨[]⟩ rfl rfl rfl

-- ── Claim C5 ─────────────────────────────────────────────────────────────────

/-- Claim C5: with all three required settings unset, the process exits with
status 1 (non-zero), the stderr line names all three missing settings, and
the trace of issued network calls is empty. -/
theorem c5_all_missing (env : Env) (h : env.raw = ⟨none, none, none⟩) :
    main env = (Outcome.exited 1
      "ERROR: Missing environment variables: CHARTMOGUL_API_KEY, SLACK_BOT_TOKEN, SLACK_CHANNEL_ID",
      ⟨[], false⟩) ∧ (1 : Nat) ≠ 0 := by
  refine ⟨?_, by decide⟩
  have hc : loadConfig env.raw = ⟨"", "", ""⟩ := by rw [h]; rfl
  simp [main, hc]
  rfl

/-- Claim C5, witness: a concrete run with every setting absent. -/
theorem c5_witness :
    main ⟨⟨none, none, none⟩, "2024-06-01", "June 01, 2024",
        CMNet.success ⟨[⟨842⟩]⟩, okRenderEnv, okSlackEnv⟩
      = (Outcome.exited 1
        "ERROR: Missing environment variables: CHARTMOGUL_API_KEY, SLACK_BOT_TOKEN, SLACK_CHANNEL_ID",
        ⟨[], false⟩) ∧ (1 : Nat) ≠ 0 :=
  c5_all_missing _ rfl

-- ── Claim C6 ─────────────────────────────────────────────────────────────────

/-- Claim C6: for every non-negative count, whenever Pillow imports and the
Poppins typeface is available (cached or fetched), generate_image returns an
image whose canvas is exactly 900 by 420 pixels in PNG format, independent of
the value. -/
theorem c6_fixed_dimensions (env : RenderEnv) (ts : String) (v : Int)
    (_hv : 0 ≤ v) (hp : env.pillowInstalled = true)
    (hfont : env.poppinsCached = true ∨ env.poppinsFetch = NetResult.success ()) :
    ∃ png : RenderedPng, (generate_image env ts v).1 = Except.ok png ∧
      png.width = 900 ∧ png.height = 420 ∧ png.format = "PNG" := by
  have hdl : download_poppins env = Except.ok poppins_cache_path := by
    rcases hfont with hc | hs
    · simp [download_poppins, hc]
    · by_cases hc : env.poppinsCached <;> simp [download_poppins, hc, hs]
  refine ⟨{ width := IMAGE_WIDTH, height := IMAGE_HEIGHT, format := "PNG",
            texts := [⟨"PAYING CUSTOMERS",
                        load_font env.ttLoadOk poppins_cache_path 32 system_fallbacks,
                        ACCENT_COLOR⟩,
                      ⟨commaFormat v,
                        load_font env.ttLoadOk song_myung_path 180 system_fallbacks,
                        NUMBER_COLOR⟩,
                      ⟨ts,
                        load_font env.ttLoadOk poppins_cache_path 22 system_fallbacks,
                        ACCENT_COLOR⟩] }, ?_, rfl, rfl, rfl⟩
  simp [generate_image, hp, hdl]

/-- Claim C6, witness: rendering count 0 in a benign environment yields a
900 by 420 PNG. -/
theorem c6_witness :
    ∃ png : RenderedPng,
      (generate_image okRenderEnv "June 01, 2024" 0).1 = Except.ok png ∧
      png.width = 900 ∧ png.height = 420 ∧ png.format = "PNG" :=
  c6_fixed_dimensions okRenderEnv "June 01, 2024" 0 (by decide) rfl (Or.inl rfl)

-- ── Claim C7 ─────────────────────────────────────────────────────────────────

/-- Claim C7: the numeral drawn on the card is the thousands-grouped decimal
string of the count: 1234567 formats as 1,234,567 and 842 as 842, and every
successfully rendered card contains a text draw equal to the grouped string
of its count. -/
theorem c7_thousands_grouping :
    commaFormat 1234567 = "1,234,567" ∧ commaFormat 842 = "842" ∧
    ∀ (env : RenderEnv) (ts : String) (v : Int) (png : RenderedPng),
      (generate_image env ts v).1 = Except.ok png →
      ∃ t ∈ png.texts, t.text = commaFormat v := by
  refine ⟨by decide, by decide, ?_⟩
  intro env ts v png h
  by_cases hp : env.pillowInstalled = false
  · simp [generate_image, hp] at h
  · rcases hdl : download_poppins env with e | p
    · simp [generate_image, hp, hdl] at h
    · simp [generate_image, hp, hdl] at h
      refine ⟨⟨commaFormat v,
          load_font env.ttLoadOk song_myung_path 180 system_fallbacks, NUMBER_COLOR⟩,
        ?_, rfl⟩
      rw [← h]
      simp

/-- Claim C7, witness: the card rendered for 1234567 contains the text draw
1,234,567. -/
theorem c7_witness :
    ∃ t ∈ c7_png.texts, t.text = commaFormat 1234567 :=
  c7_thousands_grouping.2.2 okRenderEnv "June 01, 2024" 1234567 c7_png rfl

-- ── Claim C8 ─────────────────────────────────────────────────────────────────

/-- Claim C8: for every provider response with a non-empty entries sequence,
get_paying_customers returns the customers field of the last entry of the
sequence. -/
theorem c8_last_entry_wins (today : String) (data : CMData)
    (h : data.entries ≠ []) :
    ∃ e : CMEntry, data.entries.getLast? = some e ∧
      get_paying_customers today (CMNet.success data) = Except.ok e.customers := by
  obtain ⟨e, he⟩ := Option.isSome_iff_exists.mp (List.getLast?_isSome.mpr h)
  exact ⟨e, he, by simp [get_paying_customers, he]⟩

/-- Claim C8, witness: a two-entry response yields the customers value of the
second entry. -/
theorem c8_witness :
    ∃ e : CMEntry, (CMData.mk [⟨3⟩, ⟨7⟩]).entries.getLast? = some e ∧
      get_paying_customers "2024-06-01" (CMNet.success ⟨[⟨3⟩, ⟨7⟩]⟩)
        = Except.ok e.customers :=
  c8_last_entry_wins "2024-06-01" ⟨[⟨3⟩, ⟨7⟩]⟩ (by decide)

-- ── Claim C9 ─────────────────────────────────────────────────────────────────

/-- Claim C9, counterexample.  The claim says every accepted provider
response yields a non-negative count.  The fetcher performs no validation: a
response whose single entry reports customers equal to minus one is accepted
and minus one is returned, which is negative. -/
theorem c9_counterexample :
    get_paying_customers "2024-06-01" (CMNet.success ⟨[⟨-1⟩]⟩) = Except.ok (-1) ∧
    (-1 : Int) < 0 :=
  ⟨rfl, by decide⟩

/-- Claim C9, amended: the fetcher passes the customers field of the last
entry through unvalidated, so the returned count is non-negative exactly when
the provider reports a non-negative value in that entry. -/
theorem c9_amended (today : String) (data : CMData) (e : CMEntry)
    (h : data.entries.getLast? = some e) (hnn : 0 ≤ e.customers) :
    ∃ c : Int, get_paying_customers today (CMNet.success data) = Except.ok c ∧ 0 ≤ c :=
  ⟨e.customers, by simp [get_paying_customers, h], hnn⟩

/-- Claim C9, witness: a response reporting 842 customers yields a
non-negative count. -/
theorem c9_witness :
    ∃ c : Int, get_paying_customers "2024-06-01" (CMNet.success ⟨[⟨842⟩]⟩)
      = Except.ok c ∧ 0 ≤ c :=
  c9_amended "2024-06-01" ⟨[⟨842⟩]⟩ ⟨842⟩ rfl (by decide)

-- ── Claim C10 ────────────────────────────────────────────────────────────────

/-- Claim C10: a required setting present in the environment but equal to the
empty string is treated identically to an absent setting: the whole run is
unchanged by replacing the empty-string value with absence, the setting is
reported among the missing names, and the process exits with status 1 with no
network call issued. -/
theorem c10_empty_equals_absent (env : Env) (v : EnvVar)
    (h : env.raw.getVar v = some "") :
    main env = main { env with raw := env.raw.setVar v none } ∧
    EnvVar.varName v ∈ missing_names (loadConfig env.raw) ∧
    ∃ msg : String, (main env).1 = Outcome.exited 1 msg ∧ (main env).2.netCalls = [] := by
  have hc : loadConfig (env.raw.setVar v none) = loadConfig env.raw := by
    cases v <;> simp [RawEnv.getVar] at h <;>
      simp [loadConfig, RawEnv.setVar, os_environ_get, h]
  have hmem : EnvVar.varName v ∈ missing_names (loadConfig env.raw) := by
    cases v <;> simp [RawEnv.getVar] at h <;>
      simp [missing_names, loadConfig, os_environ_get, h, EnvVar.varName]
  have hne : (missing_names (loadConfig env.raw)).isEmpty = false := by
    rcases hl : missing_names (loadConfig env.raw) with _ | ⟨x, xs⟩
    · rw [hl] at hmem; exact absurd hmem (List.not_mem_nil _)
    · rfl
  refine ⟨?_, hmem, ?_⟩
  · simp only [main, hc]
  · exact ⟨"ERROR: Missing environment variables: "
        ++ String.intercalate ", " (missing_names (loadConfig env.raw)),
      by simp [main, hne], by simp [main, hne]⟩

/-- Claim C10, witness: the provider API key set to the empty string behaves
exactly as when it is absent, is reported missing, and the run exits with
status 1 issuing no network call. -/
theorem c10_witness :
    main ⟨⟨some "", some "xoxb-token", some "C012AB3CD"⟩, "2024-06-01", "June 01, 2024",
        CMNet.success ⟨[⟨842⟩]⟩, okRenderEnv, okSlackEnv⟩
      = main { (⟨⟨some "", some "xoxb-token", some "C012AB3CD"⟩, "2024-06-01",
            "June 01, 2024", CMNet.success ⟨[⟨842⟩]⟩, okRenderEnv, okSlackEnv⟩ : Env) with
          raw := RawEnv.setVar ⟨some "", some "xoxb-token", some "C012AB3CD"⟩
            EnvVar.apiKey none } ∧
    EnvVar.varName EnvVar.apiKey ∈
      missing_names (loadConfig ⟨some "", some "xoxb-token", some "C012AB3CD"⟩) ∧
    ∃ msg : String,
      (main ⟨⟨some "", some "xoxb-token", some "C012AB3CD"⟩, "2024-06-01", "June 01, 2024",
          CMNet.success ⟨[⟨842⟩]⟩, okRenderEnv, okSlackEnv⟩).1 = Outcome.exited 1 msg ∧
      (main ⟨⟨some "", some "xoxb-token", some "C012AB3CD"⟩, "2024-06-01", "June 01, 2024",
          CMNet.success ⟨[⟨842⟩]⟩, okRenderEnv, okSlackEnv⟩).2.netCalls = [] :=
  c10_empty_equals_absent _ EnvVar.apiKey rfl

end CM2Slack
